import Mathlib

/-!
Shallow embedding of the FullCarts reddit scrapers
(src/reddit_public_scraper.py and src/reddit_scraper.py).

Modelling conventions:
  * Python strings are `String` / `List Char`; only ASCII case folding is
    relevant to the texts the scrapers handle, so `lower()` is `Char.toLower`.
  * Python floats parsed from decimal literals in post text are modelled as
    exact rationals (`ℚ`); `round(x, 2)` is bankers rounding over `ℚ`.
  * The `re` patterns are embedded as an explicit regex AST (`RE`) with a
    backtracking matcher that mirrors Python's leftmost / first-alternative /
    greedy semantics; `re.IGNORECASE` is modelled by matching on the
    lowercased text (every captured group flows into a lowercasing
    normaliser, so all extractor outputs agree).
  * Python truthiness tests on optional values (`if not u`, `x or y`) are
    modelled explicitly (`truthyStr`, `truthyQ`, `pyStrOr`).
-/

namespace FullCarts

/-! ## Python-style string helpers -/

/-- Python whitespace for `str.strip()` and the regex class `\s` (ASCII part). -/
def pyWS (c : Char) : Bool :=
  c = ' ' || c = '\t' || c = '\n' || c = '\r' || c = '\x0b' || c = '\x0c'

/-- Python `str.lower()` over a character list (ASCII). -/
def lowerStr (s : List Char) : List Char := s.map Char.toLower

/-- Python `str.strip()`: whitespace removed from both ends. -/
def stripWS (s : List Char) : List Char :=
  ((s.dropWhile pyWS).reverse.dropWhile pyWS).reverse

/-- Python `str.rstrip("s")`: every trailing `'s'` removed. -/
def rstripS (s : List Char) : List Char :=
  (s.reverse.dropWhile (fun c => c = 's')).reverse

/-- Python slicing `s[:n]` on a string. -/
def strTake (n : Nat) (s : String) : String := String.mk (s.data.take n)

/-- Whether `needle` occurs as a contiguous substring of `hay` (Python `in`). -/
def subIn (needle : List Char) : List Char → Bool
  | [] => needle.isEmpty
  | c :: rest => needle.isPrefixOf (c :: rest) || subIn needle rest

/-- Python `str.title()`: a letter is upper-cased when the previous character
is not a letter, lower-cased otherwise (so `"lay's".title() = "Lay'S"`). -/
def pyTitleAux : Bool → List Char → List Char
  | _, [] => []
  | prevAlpha, c :: rest =>
    (if c.isAlpha then (if prevAlpha then c.toLower else c.toUpper) else c)
      :: pyTitleAux c.isAlpha rest

def pyTitle (s : List Char) : List Char := pyTitleAux false s

/-- Python truthiness of an optional string (`None` and `""` are falsy). -/
def truthyStr : Option String → Bool
  | none => false
  | some s => !(s == "")

/-- Python truthiness of an optional float (`None` and `0.0` are falsy). -/
def truthyQ : Option ℚ → Bool
  | none => false
  | some q => !(q == 0)

/-- Python `a or b` for an optional string `a` and a string fallback `b`. -/
def pyStrOr (a : Option String) (b : String) : String :=
  match a with
  | some s => if s = "" then b else s
  | none => b

/-! ## Decimal literals

`float(m.group(i))` on a regex capture `\d+(?:\.\d+)?`, modelled exactly
over `ℚ`. -/

def digitsToNat (s : List Char) : Nat :=
  s.foldl (fun acc c => 10 * acc + (c.toNat - 48)) 0

def parseNum (s : List Char) : ℚ :=
  let intPart := s.takeWhile (fun c => c ≠ '.')
  let rest := s.dropWhile (fun c => c ≠ '.')
  match rest with
  | [] => (digitsToNat intPart : ℚ)
  | _ :: frac => (digitsToNat intPart : ℚ) + (digitsToNat frac : ℚ) / (10 : ℚ) ^ frac.length

/-! ## A small regex AST and backtracking matcher

The matcher is in continuation-passing style and is structurally recursive on
the regex, so the kernel can evaluate it. Alternatives are tried left to
right, repetition is greedy with backtracking: Python `re` semantics for the
patterns used by the scrapers (whose repetitions are over character classes
only). -/

inductive RE where
  | eps : RE
  | cls : (Char → Bool) → RE
  | lit : List Char → RE
  | seq : RE → RE → RE
  | alt : RE → RE → RE
  | opt : RE → RE
  | star : (Char → Bool) → RE
  | plus : (Char → Bool) → RE
  | grp : Nat → RE → RE

/-- Captured groups: group number to captured characters (latest first). -/
abbrev Caps := List (Nat × List Char)

def capLookup (caps : Caps) (n : Nat) : Option (List Char) :=
  match caps with
  | [] => none
  | (m, v) :: rest => if m = n then some v else capLookup rest n

/-- Strip the literal `l` from the front of `s`. -/
def litStrip : List Char → List Char → Option (List Char)
  | [], s => some s
  | _, [] => none
  | a :: as', c :: cs => if a = c then litStrip as' cs else none

/-- Greedy class repetition with backtracking: longest first. -/
def manyRun {α : Type} (p : Char → Bool) (s : List Char)
    (k : List Char → Option α) : Option α :=
  match s with
  | [] => k []
  | c :: rest => if p c then (manyRun p rest k) <|> k (c :: rest) else k (c :: rest)

def reRun {α : Type} : RE → List Char → Caps → (List Char → Caps → Option α) → Option α
  | .eps, s, caps, k => k s caps
  | .cls p, s, caps, k =>
    match s with
    | [] => none
    | c :: rest => if p c then k rest caps else none
  | .lit l, s, caps, k =>
    match litStrip l s with
    | some rest => k rest caps
    | none => none
  | .seq a b, s, caps, k => reRun a s caps (fun s1 c1 => reRun b s1 c1 k)
  | .alt a b, s, caps, k => (reRun a s caps k) <|> (reRun b s caps k)
  | .opt r, s, caps, k => (reRun r s caps k) <|> k s caps
  | .star p, s, caps, k => manyRun p s (fun s1 => k s1 caps)
  | .plus p, s, caps, k =>
    match s with
    | [] => none
    | c :: rest => if p c then manyRun p rest (fun s1 => k s1 caps) else none
  | .grp n r, s, caps, k =>
    reRun r s caps (fun s1 c1 => k s1 ((n, s.take (s.length - s1.length)) :: c1))

/-- Python `pattern.search(s)`: leftmost match, returning the captures and the
remainder of the text after the match. -/
def reSearch (r : RE) : List Char → Option (Caps × List Char)
  | [] => reRun r [] [] (fun rest caps => some (caps, rest))
  | c :: tail =>
    (reRun r (c :: tail) [] (fun rest caps => some (caps, rest))) <|> reSearch r tail

def reFindAllAux (r : RE) : Nat → List Char → List Caps
  | 0, _ => []
  | fuel + 1, s =>
    match reSearch r s with
    | none => []
    | some (caps, rest) => caps :: reFindAllAux r fuel rest

/-- Python `pattern.findall(s)` for the scrapers' patterns (each match
consumes at least one character, so the fuel suffices). -/
def findall (r : RE) (s : List Char) : List Caps := reFindAllAux r (s.length + 1) s

/-! Pattern-building helpers. -/

def litS (s : String) : RE := RE.lit s.data

/-- `stem[s]?` -/
def sOptRE (stem : String) : RE := RE.seq (litS stem) (RE.opt (litS "s"))

/-- Ordered alternation (Python tries alternatives left to right). -/
def altL : List RE → RE
  | [] => RE.eps
  | [r] => r
  | r :: rest => RE.alt r (altL rest)

def isDigitB (c : Char) : Bool := c.isDigit

def wsStar : RE := RE.star pyWS
def wsPlus : RE := RE.plus pyWS

/-- `\d+(?:\.\d+)?` -/
def numRE : RE := RE.seq (RE.plus isDigitB) (RE.opt (RE.seq (litS ".") (RE.plus isDigitB)))

/-- `fl\.?\s*oz` -/
def flozRE : RE := RE.seq (litS "fl") (RE.seq (RE.opt (litS ".")) (RE.seq wsStar (litS "oz")))

/-- `sq\.?\s*ft` -/
def sqftRE : RE := RE.seq (litS "sq") (RE.seq (RE.opt (litS ".")) (RE.seq wsStar (litS "ft")))

/-- Sequencing a list of regex pieces in order. -/
def seqL : List RE → RE
  | [] => RE.eps
  | [r] => r
  | r :: rest => RE.seq r (seqL rest)

/-! ## The extracted-signals record

The `result` dict built by `parse_text` in both scraper variants (same keys
in both files). -/

structure ParseResult where
  brand : Option String
  product_hint : Option String
  old_size : Option ℚ
  new_size : Option ℚ
  old_unit : Option String
  new_unit : Option String
  old_price : Option ℚ
  new_price : Option ℚ
  fields_found : Nat
  explicit_from_to : Bool
deriving DecidableEq, Repr

/-- The freshly initialised `result` dict. -/
def emptyResult : ParseResult :=
  { brand := none, product_hint := none, old_size := none, new_size := none,
    old_unit := none, new_unit := none, old_price := none, new_price := none,
    fields_found := 0, explicit_from_to := false }

/-- First entry of `brands` occurring as a substring of the lowercased text
(the `for brand in KNOWN_BRANDS: ... break` scan). -/
def firstBrand (brands : List String) (tl : List Char) : Option String :=
  match brands with
  | [] => none
  | b :: rest => if subIn b.data tl then some b else firstBrand rest tl

/-- Association-list lookup (Python dict `.get` on a literal dict). -/
def lookupStr : List (String × String) → String → Option String
  | [], _ => none
  | (k, v) :: rest, t => if k = t then some v else lookupStr rest t

/-! ## reddit_public_scraper.py -/

namespace RedditPublicScraper

/-- KNOWN_BRANDS of src/reddit_public_scraper.py (lines 75-115), in scan order. -/
def KNOWN_BRANDS : List String := [
  "tropicana", "lays", "lay's", "doritos", "gatorade", "pepsi", "coca-cola", "coke",
  "hellmann's", "hellmanns", "unilever", "general mills", "cheerios", "nature valley",
  "tide", "dawn", "bounty", "charmin", "folgers", "maxwell house", "starbucks",
  "oreo", "nabisco", "mondelez", "campbell's", "campbells", "kraft", "heinz",
  "heinz ketchup", "kellogg's", "kelloggs", "special k", "frosted flakes",
  "quaker", "pepsico", "post", "planters", "skippy", "jif", "peanut butter",
  "trader joe's", "trader joes", "costco", "kirkland", "whole foods", "365",
  "ben & jerry's", "haagen-dazs", "breyers", "blue bell",
  "tyson", "perdue", "oscar mayer", "ball park", "hebrew national",
  "minute maid", "simply orange", "florida's natural",
  "colgate", "crest", "oral-b", "listerine",
  "febreze", "glad", "ziploc", "scotch-brite",
  "stouffer's", "lean cuisine", "marie callender's",
  "progresso", "amy's", "annie's", "horizon",
  "tostitos", "ruffles", "cheetos", "fritos", "sun chips",
  "pringles", "wheat thins", "triscuit", "ritz", "goldfish",
  "hershey", "reese's", "kit kat", "snickers", "m&m's", "twix",
  "nestle", "nescafe", "coffee mate", "dreyer's", "edy's",
  "tillamook", "chobani", "yoplait", "dannon", "oikos",
  "oscar mayer", "jimmy dean", "johnsonville", "hillshire",
  "goya", "old el paso", "taco bell", "mission",
  "barilla", "ragu", "prego", "classico", "bertolli",
  "hidden valley", "ranch", "french's", "grey poupon",
  "velveeta", "philadelphia", "sargento", "borden",
  "totino's", "digiorno", "red baron", "tombstone",
  "hot pocket", "hot pockets", "bagel bites",
  "frito-lay", "frito lay", "pepperidge farm",
  "smucker's", "smuckers", "welch's", "welchs",
  "aunt jemima", "pearl milling", "mrs butterworth",
  "wonder bread", "sara lee", "arnold", "dave's killer bread",
  "thomas'", "thomas", "entenmann's", "entenmanns",
  "little debbie", "hostess", "drake's",
  "scott", "cottonelle", "viva", "kleenex", "puffs",
  "huggies", "pampers", "luvs",
  "downy", "gain", "all", "arm & hammer", "oxiclean",
  "clorox", "lysol", "pine-sol", "mr clean",
  "dial", "irish spring", "dove", "ivory", "olay",
  "pantene", "head & shoulders", "suave", "tresemme",
  "toblerone", "cadbury", "lindt", "ghirardelli", "godiva"]

/-- Unit alternation of UNIT_PATTERN (line 121-124), in alternative order. -/
def unitAlt : RE := altL [
  litS "oz", flozRE, sOptRE "ounce", sOptRE "lb", sOptRE "pound",
  litS "g", sOptRE "gram", litS "kg", litS "ml", sOptRE "liter", litS "l",
  litS "ct", litS "count", litS "pack", sOptRE "piece", sOptRE "sheet",
  sOptRE "roll", sqftRE, litS "pt", sOptRE "pint", litS "qt", sOptRE "quart",
  litS "gal", sOptRE "gallon"]

/-- UNIT_PATTERN (lines 121-124). -/
def UNIT_PATTERN : RE := seqL [RE.grp 1 numRE, wsStar, RE.grp 2 unitAlt]

/-- PRICE_PATTERN (line 126): dollar sign, optional space, `\d+(?:\.\d{1,2})?`. -/
def PRICE_PATTERN : RE :=
  seqL [litS "$", wsStar,
    RE.grp 1 (RE.seq (RE.plus isDigitB)
      (RE.opt (seqL [litS ".", RE.cls isDigitB, RE.opt (RE.cls isDigitB)])))]

/-- Unit alternation inside FROM_TO_PATTERN (lines 128-134). -/
def ftUnit : RE := altL [
  litS "oz", flozRE, sOptRE "ounce", sOptRE "lb", sOptRE "pound",
  litS "g", sOptRE "gram", litS "kg", litS "ml", litS "ct", litS "count",
  litS "pack", sOptRE "sheet", sOptRE "roll", litS "pt", sOptRE "pint",
  litS "qt", sOptRE "quart", litS "gal", sOptRE "gallon"]

/-- Leading cue alternation of FROM_TO_PATTERN. -/
def ftCue : RE := altL [
  litS "from", litS "was", litS "went from", litS "used to be",
  litS "previously", RE.seq (litS "old") (RE.opt (litS ":")),
  litS "originally", litS "started at"]

/-- Connector alternation of FROM_TO_PATTERN. -/
def ftConn : RE := altL [
  litS "to", litS "now", litS "→", litS "->", litS "-->", litS "–", litS "—",
  litS "-", litS "down to", litS "reduced to", litS "shrunk to", litS "changed to"]

/-- FROM_TO_PATTERN (lines 128-134). -/
def FROM_TO_PATTERN : RE :=
  seqL [ftCue, wsPlus, RE.grp 1 numRE, wsStar, RE.opt (RE.grp 2 ftUnit),
    wsStar, ftConn, wsStar, RE.grp 3 numRE, wsStar, RE.opt (RE.grp 4 ftUnit)]

/-- Unit alternation inside ARROW_PATTERN (lines 137-142). -/
def arrowUnit : RE := altL [
  litS "oz", flozRE, litS "g", sOptRE "gram", litS "ml", sOptRE "lb",
  litS "ct", litS "count", sOptRE "sheet", sOptRE "roll"]

/-- Connector alternation of ARROW_PATTERN. -/
def arrowConn : RE := altL [
  litS "→", litS "->", litS "-->", litS "⟶", litS "to",
  RE.seq (litS "vs") (RE.opt (litS ".")), litS "versus", litS "down to"]

/-- ARROW_PATTERN (lines 137-142). -/
def ARROW_PATTERN : RE :=
  seqL [RE.grp 1 numRE, wsStar, RE.grp 2 arrowUnit, wsStar, arrowConn,
    wsStar, RE.grp 3 numRE, wsStar, RE.opt (RE.grp 4 arrowUnit)]

/-- Synonym table of normalize_unit (lines 194-200). -/
def UNIT_SYNONYMS : List (String × String) := [
  ("fl oz", "fl oz"), ("fl. oz", "fl oz"), ("ounce", "oz"),
  ("pound", "lb"), ("gram", "g"), ("liter", "l"),
  ("pint", "pt"), ("quart", "qt"), ("gallon", "gal"),
  ("sheet", "sheets"), ("roll", "rolls"), ("piece", "ct"),
  ("sq ft", "sq ft"), ("sq. ft", "sq ft")]

/-- normalize_unit (lines 189-201): `""` defaults to `"oz"`; otherwise
lower-case, strip whitespace, `rstrip("s")` (every trailing s), then the
synonym table with pass-through. -/
def normalize_unit (u : String) : String :=
  if u = "" then "oz"
  else
    let t := String.mk (rstripS (stripWS (lowerStr u.data)))
    match lookupStr UNIT_SYNONYMS t with
    | some v => v
    | none => t

/-- Brand-detection step of parse_text (lines 222-226). -/
def brandStep (tl : List Char) (r : ParseResult) : ParseResult :=
  match firstBrand KNOWN_BRANDS tl with
  | some b =>
    { r with brand := some (String.mk (pyTitle b.data)),
             fields_found := r.fields_found + 1 }
  | none => r

/-- The explicit-pattern search of parse_text (lines 229-231): FROM_TO first,
ARROW as fallback. -/
def explicitSearch (tl : List Char) : Option (Caps × List Char) :=
  match reSearch FROM_TO_PATTERN tl with
  | some m => some m
  | none => reSearch ARROW_PATTERN tl

/-- Explicit from-to step of parse_text (lines 229-254). When the match is
backward (second value larger) the operands, units included, are swapped;
equal values leave the result untouched. -/
def explicitStep (tl : List Char) (r : ParseResult) : ParseResult :=
  match explicitSearch tl with
  | none => r
  | some (caps, _) =>
    let old_val := parseNum ((capLookup caps 1).getD [])
    let new_val := parseNum ((capLookup caps 3).getD [])
    let old_u := normalize_unit (String.mk ((capLookup caps 2).getD ("oz".data)))
    let new_u := normalize_unit (match capLookup caps 4 with
      | some u => String.mk u
      | none => old_u)
    if old_val > new_val then
      { r with old_size := some old_val, new_size := some new_val,
               old_unit := some old_u, new_unit := some new_u,
               explicit_from_to := true, fields_found := r.fields_found + 2 }
    else if new_val > old_val then
      { r with old_size := some new_val, new_size := some old_val,
               old_unit := some new_u, new_unit := some old_u,
               explicit_from_to := true, fields_found := r.fields_found + 2 }
    else r

/-- All `(number, unit)` mentions (`UNIT_PATTERN.findall`). -/
def unitMentions (tl : List Char) : List Caps := findall UNIT_PATTERN tl

/-- Numeric value of one unit mention (`float(units[i][0])`). -/
def mentionVal (c : Caps) : ℚ := parseNum ((capLookup c 1).getD [])

/-- Canonical unit of one mention (`normalize_unit(units[i][1])`). -/
def mentionUnit (c : Caps) : String := normalize_unit (String.mk ((capLookup c 2).getD []))

/-- Implicit size step of parse_text (lines 256-277), run only when no
explicit pattern set the flag. -/
def implicitStep (tl : List Char) (r : ParseResult) : ParseResult :=
  if r.explicit_from_to then r
  else
    let units := unitMentions tl
    if 2 ≤ units.length then
      let old_val := mentionVal (units.headD [])
      let old_u := mentionUnit (units.headD [])
      let new_val := mentionVal (units.getLastD [])
      let new_u := mentionUnit (units.getLastD [])
      if old_val ≠ new_val ∧ old_u = new_u then
        if old_val > new_val then
          { r with old_size := some old_val, new_size := some new_val,
                   old_unit := some old_u, new_unit := some new_u,
                   fields_found := r.fields_found + 1 }
        else
          { r with old_size := some new_val, new_size := some old_val,
                   old_unit := some old_u, new_unit := some new_u,
                   fields_found := r.fields_found + 1 }
      else r
    else if units.length = 1 then
      { r with new_size := some (mentionVal (units.headD [])),
               new_unit := some (mentionUnit (units.headD [])) }
    else r

/-- Price step of parse_text (lines 280-286). -/
def priceStep (tl : List Char) (r : ParseResult) : ParseResult :=
  let prices := findall PRICE_PATTERN tl
  if 2 ≤ prices.length then
    { r with old_price := some (parseNum ((capLookup (prices.headD []) 1).getD [])),
             new_price := some (parseNum ((capLookup (prices.getLastD []) 1).getD [])),
             fields_found := r.fields_found + 1 }
  else if prices.length = 1 then
    { r with new_price := some (parseNum ((capLookup (prices.headD []) 1).getD [])) }
  else r

/-- First line of the stripped text (`text.strip().split("\n")[0]`). -/
def firstLine (s : List Char) : List Char :=
  (stripWS s).takeWhile (fun c => c ≠ '\n')

/-- One `re.sub(r"^\[?TAG\]?\s*", "", s, flags=IGNORECASE)` application. -/
def subTag (tag : List Char) (s : List Char) : List Char :=
  let s1 := match s with
    | '[' :: t => t
    | _ => s
  if lowerStr (s1.take tag.length) = tag then
    let s2 := s1.drop tag.length
    let s3 := match s2 with
      | ']' :: t => t
      | _ => s2
    s3.dropWhile pyWS
  else s

/-- Product-hint step of parse_text (lines 289-293): first line, 120 chars,
leading `[META]` / `[Discussion]` tags removed, stripped. -/
def hintStep (textData : List Char) (r : ParseResult) : ParseResult :=
  let fl := (firstLine textData).take 120
  let cleaned := subTag ("meta".data) fl
  let cleaned2 := subTag ("discussion".data) cleaned
  { r with product_hint := some (String.mk (stripWS cleaned2)) }

/-- parse_text of reddit_public_scraper.py (lines 204-295): the five steps in
source order over the freshly initialised result. -/
def parse_text (text : String) : ParseResult :=
  let tl := lowerStr text.data
  hintStep text.data (priceStep tl (implicitStep tl (explicitStep tl (brandStep tl emptyResult))))

def TIER_AUTO_THRESHOLD : Nat := 3
def TIER_REVIEW_THRESHOLD : Nat := 1

/-- confidence_tier (lines 298-305). `parsed["brand"]` is Python-truthy
exactly when the optional string is present and non-empty. -/
def confidence_tier (parsed : ParseResult) : String :=
  if TIER_AUTO_THRESHOLD ≤ parsed.fields_found ∧ truthyStr parsed.brand = true
      ∧ parsed.explicit_from_to = true then "auto"
  else if TIER_REVIEW_THRESHOLD ≤ parsed.fields_found then "review"
  else "discard"

/-! ### Category guesser (lines 158-182)

Each branch is `re.search` of an alternation of plain literals (no word
boundaries), which holds exactly when some alternative is a substring; the
`[s]?` suffixes are subsumed by their stems. -/

def anySub (keys : List String) (t : List Char) : Bool :=
  keys.any fun k => subIn k.data t

def guess_category (text : String) : String :=
  let t := lowerStr text.data
  if anySub ["juice", "soda", "water", "drink", "coffee", "tea", "milk", "creamer",
      "gatorade", "powerade", "lemonade", "beer", "wine", "energy drink"] t then "Beverages"
  else if anySub ["chip", "cookie", "cracker", "pretzel", "popcorn", "candy", "chocolate",
      "gum", "snack", "goldfish", "cheeto", "dorito", "frito", "pringles", "oreo", "ritz",
      "wheat thin"] t then "Snacks"
  else if anySub ["cereal", "oat", "granola", "cheerio", "frosted flake", "special k",
      "raisin bran"] t then "Cereal"
  else if anySub ["paper towel", "toilet paper", "tissue", "napkin", "bounty", "charmin",
      "scott", "cottonelle", "kleenex"] t then "Paper Goods"
  else if anySub ["soap", "shampoo", "conditioner", "detergent", "cleaner", "dish",
      "laundry", "tide", "dawn", "lysol", "clorox", "toothpaste", "deodorant"] t then "Household"
  else if anySub ["ice cream", "frozen", "pizza", "bagel bite", "hot pocket", "totino",
      "digiorno", "stouffer", "lean cuisine"] t then "Frozen"
  else if anySub ["bread", "bagel", "muffin", "roll", "bun", "tortilla", "wrap", "pita",
      "croissant", "english muffin"] t then "Bakery"
  else if anySub ["yogurt", "cheese", "butter", "cream cheese", "sour cream",
      "cottage cheese", "milk", "egg"] t then "Dairy"
  else if anySub ["sauce", "ketchup", "mustard", "mayo", "dressing", "salsa", "soup",
      "broth", "pasta", "rice", "bean", "canned"] t then "Pantry"
  else if anySub ["chicken", "beef", "pork", "turkey", "bacon", "sausage", "hot dog",
      "deli", "meat", "fish", "shrimp", "salmon"] t then "Meat"
  else if anySub ["peanut butter", "jam", "jelly", "honey", "syrup", "spread",
      "nutella"] t then "Spreads"
  else "Other"

/-! ### SHRINK_KEYWORDS (lines 144-152)

The pattern is a `\b`-delimited alternation of literals (after expanding the
character-class options `rip[- ]?off` and `thin[n]?er`); `search` succeeds
exactly when some alternative occurs with non-word characters (or the text
edge) on both sides. -/

def SHRINK_KEYWORDS : List String := [
  "shrinkflation", "shrunk", "smaller", "reduced", "less", "shrank",
  "downsized", "downsizing", "size cut", "weight cut", "ounces less",
  "fewer ounces", "net weight", "same price", "price increase", "got smaller",
  "getting smaller", "they reduced", "they cut", "less product",
  "ripoff", "rip-off", "rip off", "same box", "same package", "smaller amount",
  "used to be", "went from", "half the size", "thiner", "thinner", "narrower",
  "shorter", "lighter", "watered down", "diluted", "fewer count", "less sheets",
  "less rolls", "family size", "not as big", "getting ripped off"]

/-- Regex word character (`\w`, ASCII part). -/
def isWordChar (c : Char) : Bool := c.isAlphanum || c = '_'

/-- Some keyword matches at the head of `s` with word boundaries on both
sides (`prev` is the character before `s`, if any). -/
def kwAt (prev : Option Char) (s : List Char) : Bool :=
  SHRINK_KEYWORDS.any fun k =>
    k.data.isPrefixOf s
      && (match prev with
          | none => true
          | some c => !isWordChar c)
      && (match s.drop k.data.length with
          | [] => true
          | c :: _ => !isWordChar c)

def kwScan (prev : Option Char) : List Char → Bool
  | [] => false
  | c :: rest => kwAt prev (c :: rest) || kwScan (some c) rest

/-- `SHRINK_KEYWORDS.search(full_text)` as a Boolean. -/
def hasShrinkKw (s : String) : Bool := kwScan none (lowerStr s.data)

end RedditPublicScraper

/-! ## reddit_scraper.py (the PRAW variant) -/

namespace RedditScraper

/-- KNOWN_BRANDS of src/reddit_scraper.py (lines 86-101). -/
def KNOWN_BRANDS : List String := [
  "tropicana", "lays", "lay's", "doritos", "gatorade", "pepsi", "coca-cola", "coke",
  "hellmann's", "hellmanns", "unilever", "general mills", "cheerios", "nature valley",
  "tide", "dawn", "bounty", "charmin", "folgers", "maxwell house", "starbucks",
  "oreo", "nabisco", "mondelez", "campbell's", "campbells", "kraft", "heinz",
  "heinz ketchup", "kellogg's", "kelloggs", "special k", "frosted flakes",
  "quaker", "pepsico", "post", "planters", "skippy", "jif", "peanut butter",
  "trader joe's", "trader joes", "costco", "kirkland", "whole foods", "365",
  "ben & jerry's", "haagen-dazs", "breyers", "blue bell",
  "tyson", "perdue", "oscar mayer", "ball park", "hebrew national",
  "minute maid", "simply orange", "florida's natural",
  "colgate", "crest", "oral-b", "listerine",
  "febreze", "glad", "ziploc", "scotch-brite",
  "stouffer's", "lean cuisine", "marie callender's",
  "progresso", "amy's", "annie's", "horizon"]

/-- Unit alternation of this file's UNIT_PATTERN (lines 104-107). -/
def unitAlt : RE := altL [
  litS "oz", flozRE, sOptRE "ounce", sOptRE "lb", sOptRE "pound",
  litS "g", sOptRE "gram", litS "ml", sOptRE "liter", litS "ct", litS "count",
  litS "pack", sOptRE "piece", sOptRE "sheet"]

/-- UNIT_PATTERN (lines 104-107). -/
def UNIT_PATTERN : RE := seqL [RE.grp 1 numRE, wsStar, RE.grp 2 unitAlt]

/-- PRICE_PATTERN (line 110), same as the public scraper's. -/
def PRICE_PATTERN : RE :=
  seqL [litS "$", wsStar,
    RE.grp 1 (RE.seq (RE.plus isDigitB)
      (RE.opt (seqL [litS ".", RE.cls isDigitB, RE.opt (RE.cls isDigitB)])))]

/-- Unit alternation inside this file's FROM_TO_PATTERN (lines 113-119). -/
def ftUnit : RE := altL [
  litS "oz", flozRE, sOptRE "ounce", sOptRE "lb", sOptRE "pound",
  litS "g", sOptRE "gram", litS "ml", litS "ct", litS "count"]

def ftCue : RE := altL [
  litS "from", litS "was", litS "went from", litS "used to be",
  litS "previously", RE.seq (litS "old") (RE.opt (litS ":"))]

def ftConn : RE := altL [
  litS "to", litS "now", litS "→", litS "->", litS "–", litS "-"]

/-- FROM_TO_PATTERN (lines 113-119). -/
def FROM_TO_PATTERN : RE :=
  seqL [ftCue, wsPlus, RE.grp 1 numRE, wsStar, RE.opt (RE.grp 2 ftUnit),
    wsStar, ftConn, wsStar, RE.grp 3 numRE, wsStar, RE.opt (RE.grp 4 ftUnit)]

/-- `u.lower().rstrip("s")`, the unit clean-up this variant uses in place of
a synonym table. -/
def lowerRstrip (s : List Char) : String := String.mk (rstripS (lowerStr s))

/-- Brand-detection step (lines 155-159). -/
def brandStep (tl : List Char) (r : ParseResult) : ParseResult :=
  match firstBrand KNOWN_BRANDS tl with
  | some b =>
    { r with brand := some (String.mk (pyTitle b.data)),
             fields_found := r.fields_found + 1 }
  | none => r

/-- Size step (lines 162-184): on a FROM_TO match the groups are assigned in
textual order (no swap, no magnitude check); otherwise the implicit fallback
always records a ≥2-mention pair (units checked nowhere) and counts the field
only when the two values differ. -/
def sizeStep (tl : List Char) (r : ParseResult) : ParseResult :=
  match reSearch FROM_TO_PATTERN tl with
  | some (caps, _) =>
    let old_u := lowerRstrip ((capLookup caps 2).getD ("oz".data))
    { r with old_size := some (parseNum ((capLookup caps 1).getD [])),
             old_unit := some old_u,
             new_size := some (parseNum ((capLookup caps 3).getD [])),
             new_unit := some (lowerRstrip ((capLookup caps 4).getD old_u.data)),
             explicit_from_to := true,
             fields_found := r.fields_found + 2 }
  | none =>
    let units := findall UNIT_PATTERN tl
    if 2 ≤ units.length then
      let old_val := parseNum ((capLookup (units.headD []) 1).getD [])
      let new_val := parseNum ((capLookup (units.getLastD []) 1).getD [])
      let r1 :=
        { r with old_size := some old_val,
                 old_unit := some (lowerRstrip ((capLookup (units.headD []) 2).getD [])),
                 new_size := some new_val,
                 new_unit := some (lowerRstrip ((capLookup (units.getLastD []) 2).getD [])) }
      if old_val ≠ new_val then { r1 with fields_found := r1.fields_found + 1 } else r1
    else if units.length = 1 then
      { r with new_size := some (parseNum ((capLookup (units.headD []) 1).getD [])),
               new_unit := some (lowerRstrip ((capLookup (units.headD []) 2).getD [])) }
    else r

/-- Price step (lines 187-193). -/
def priceStep (tl : List Char) (r : ParseResult) : ParseResult :=
  let prices := findall PRICE_PATTERN tl
  if 2 ≤ prices.length then
    { r with old_price := some (parseNum ((capLookup (prices.headD []) 1).getD [])),
             new_price := some (parseNum ((capLookup (prices.getLastD []) 1).getD [])),
             fields_found := r.fields_found + 1 }
  else if prices.length = 1 then
    { r with new_price := some (parseNum ((capLookup (prices.headD []) 1).getD [])) }
  else r

/-- Product-hint step (lines 196-197): first line, 120 chars, no tag removal. -/
def hintStep (textData : List Char) (r : ParseResult) : ParseResult :=
  let fl := ((stripWS textData).takeWhile (fun c => c ≠ '\n')).take 120
  { r with product_hint := some (String.mk fl) }

/-- parse_text of reddit_scraper.py (lines 134-199). -/
def parse_text (text : String) : ParseResult :=
  let tl := lowerStr text.data
  hintStep text.data (priceStep tl (sizeStep tl (brandStep tl emptyResult)))

def TIER_AUTO_THRESHOLD : Nat := 3
def TIER_REVIEW_THRESHOLD : Nat := 1

/-- confidence_tier of reddit_scraper.py (lines 202-214). -/
def confidence_tier (parsed : ParseResult) : String :=
  if TIER_AUTO_THRESHOLD ≤ parsed.fields_found ∧ truthyStr parsed.brand = true
      ∧ parsed.explicit_from_to = true then "auto"
  else if TIER_REVIEW_THRESHOLD ≤ parsed.fields_found then "review"
  else "discard"

end RedditScraper

/-! ## Calendar helpers

`datetime.utcfromtimestamp` / `strftime` for non-negative epoch seconds,
via the standard civil-from-days conversion. -/

def civilFromDays (z : Nat) : Nat × Nat × Nat :=
  let z' := z + 719468
  let era := z' / 146097
  let doe := z' % 146097
  let yoe := (doe - doe / 1460 + doe / 36524 - doe / 146096) / 365
  let y := yoe + era * 400
  let doy := doe - (365 * yoe + yoe / 4 - yoe / 100)
  let mp := (5 * doy + 2) / 153
  let d := doy - (153 * mp + 2) / 5 + 1
  let m := if mp < 10 then mp + 3 else mp - 9
  (if m ≤ 2 then y + 1 else y, m, d)

def pad2 (n : Nat) : String := if n < 10 then "0" ++ toString n else toString n

def pad4 (n : Nat) : String :=
  if n < 10 then "000" ++ toString n
  else if n < 100 then "00" ++ toString n
  else if n < 1000 then "0" ++ toString n
  else toString n

/-- `datetime.utcfromtimestamp(ts).strftime("%Y-%m-01")`. -/
def ym01 (ts : Nat) : String :=
  match civilFromDays (ts / 86400) with
  | (y, m, _) => pad4 y ++ "-" ++ pad2 m ++ "-01"

/-- `datetime.utcfromtimestamp(ts).isoformat()` (naive, zero microseconds). -/
def isoNoTZ (ts : Nat) : String :=
  match civilFromDays (ts / 86400) with
  | (y, m, d) =>
    let rem := ts % 86400
    pad4 y ++ "-" ++ pad2 m ++ "-" ++ pad2 d ++ "T" ++ pad2 (rem / 3600) ++ ":"
      ++ pad2 (rem % 3600 / 60) ++ ":" ++ pad2 (rem % 60)

/-- `datetime.fromtimestamp(ts, tz=timezone.utc).isoformat()`. -/
def isoTZ (ts : Nat) : String := isoNoTZ ts ++ "+00:00"

namespace RedditPublicScraper

/-! ### Posts, staging entries and the per-batch loop (lines 429-579)

The clock (`datetime.now`) enters as the parameter `now` (epoch seconds). -/

/-- The post fields the pipeline reads (`post.get(...)` keys). -/
structure RedditPost where
  permalink : String
  subreddit : String
  title : String
  selftext : String
  created_utc : Nat
  score : Int
  num_comments : Int
deriving DecidableEq, Repr

/-- Canonical source url (lines 443 and 545-546). -/
def urlOfPost (p : RedditPost) : String :=
  if p.permalink.startsWith "/" then "https://reddit.com" ++ p.permalink else p.permalink

structure StagingEntry where
  source_url : String
  subreddit : String
  posted_utc : Option String
  scraped_utc : String
  tier : String
  status : String
  title : String
  brand : Option String
  product_hint : Option String
  old_size : Option ℚ
  old_unit : Option String
  new_size : Option ℚ
  new_unit : Option String
  old_price : Option ℚ
  new_price : Option ℚ
  explicit_from_to : Bool
  fields_found : Nat
  score : Int
  num_comments : Int
  date_noticed : String
deriving DecidableEq, Repr

/-- build_entry (lines 429-463). -/
def build_entry (now : Nat) (post : RedditPost) (parsed : ParseResult) (tier : String) :
    StagingEntry :=
  let created := post.created_utc
  { source_url := urlOfPost post
    subreddit := post.subreddit
    posted_utc := if created ≠ 0 then some (isoNoTZ created) else none
    scraped_utc := isoTZ now
    tier := tier
    status := "pending"
    title := strTake 200 post.title
    brand := parsed.brand
    product_hint := parsed.product_hint
    old_size := parsed.old_size
    old_unit := parsed.old_unit
    new_size := parsed.new_size
    new_unit := parsed.new_unit
    old_price := parsed.old_price
    new_price := parsed.new_price
    explicit_from_to := parsed.explicit_from_to
    fields_found := parsed.fields_found
    score := post.score
    num_comments := post.num_comments
    date_noticed := if created ≠ 0 then ym01 created else ym01 now }

/-- The `stats` dict of process_posts (line 541). -/
structure RunStats where
  seen : Nat
  skipped_dup : Nat
  auto : Nat
  review : Nat
  discard : Nat
  no_keyword : Nat
deriving DecidableEq, Repr

def initStats : RunStats := ⟨0, 0, 0, 0, 0, 0⟩

/-- `stats[tier] += 1` for a tier name. -/
def tierBump (st : RunStats) (tier : String) : RunStats :=
  if tier = "auto" then { st with auto := st.auto + 1 }
  else if tier = "review" then { st with review := st.review + 1 }
  else if tier = "discard" then { st with discard := st.discard + 1 }
  else st

structure ProcessOutcome where
  entries : List StagingEntry
  new_urls : List String
  stats : RunStats
deriving Repr

/-- `new_urls.add(url)` (set insertion). -/
def insertUrl (u : String) (l : List String) : List String :=
  if u ∈ l then l else u :: l

/-- The relevance-filter condition of lines 559-560: not in r/shrinkflation
and no shrinkflation keyword in the combined text. -/
def droppedNoKw (p : RedditPost) : Bool :=
  (!(String.mk (lowerStr p.subreddit.data) == "shrinkflation"))
    && !(hasShrinkKw (p.title ++ "\n" ++ p.selftext))

/-- process_posts (lines 537-579). The loop appends the contribution of each
post in order; the recursion prepends the head post's contribution to the
outcome for the remaining posts, which yields the same entry list, url set
and counters. -/
def process_posts (now : Nat) (known : List String) : List RedditPost → ProcessOutcome
  | [] => ⟨[], [], initStats⟩
  | p :: rest =>
    let o := process_posts now known rest
    let url := urlOfPost p
    if url ∈ known then
      ⟨o.entries, o.new_urls,
        { o.stats with seen := o.stats.seen + 1, skipped_dup := o.stats.skipped_dup + 1 }⟩
    else if droppedNoKw p then
      ⟨o.entries, insertUrl url o.new_urls,
        { o.stats with seen := o.stats.seen + 1, no_keyword := o.stats.no_keyword + 1 }⟩
    else
      let parsed := parse_text (p.title ++ "\n" ++ p.selftext)
      let tier := confidence_tier parsed
      let entries :=
        if tier ≠ "discard" then build_entry now p parsed tier :: o.entries else o.entries
      ⟨entries, insertUrl url o.new_urls, tierBump { o.stats with seen := o.stats.seen + 1 } tier⟩

/-! ### Promotion engine (lines 470-530) -/

/-- A `reddit_staging` row as the promotion query returns it. -/
structure StagingRow where
  id : String
  tier : String
  status : String
  old_size : Option ℚ
  new_size : Option ℚ
  old_unit : Option String
  new_unit : Option String
  old_price : Option ℚ
  new_price : Option ℚ
  product_hint : Option String
  brand : Option String
  date_noticed : Option String
  posted_utc : Option String
  source_url : Option String
deriving DecidableEq, Repr

def getDStr (a : Option String) : String := a.getD ""

/-- `products` table row; `typ` carries the source's `"type"` key (`type` is
a Lean keyword). -/
structure Product where
  upc : String
  name : String
  brand : Option String
  category : String
  current_size : ℚ
  unit : String
  typ : String
  repeat_offender : Bool
  source : String
deriving DecidableEq, Repr

/-- `events` table row. -/
structure Event where
  upc : String
  date : String
  old_size : ℚ
  new_size : ℚ
  unit : String
  pct : ℚ
  price_before : Option ℚ
  price_after : Option ℚ
  typ : String
  notes : String
  source : String
deriving DecidableEq, Repr

/-- Floor of a rational (Euclidean division of numerator by denominator). -/
def ratFloor (x : ℚ) : ℤ := Int.ediv x.num (x.den : ℤ)

/-- Python `round(q, 2)`: bankers (half-to-even) rounding to 2 decimals,
modelled over exact rationals. -/
def pyRound2 (q : ℚ) : ℚ :=
  let x := q * 100
  let f := ratFloor x
  let frac := x - (f : ℚ)
  let n : ℤ :=
    if frac < 1 / 2 then f
    else if (1 : ℚ) / 2 < frac then f + 1
    else if f % 2 = 0 then f else f + 1
  (n : ℚ) / 100

/-- The pct computation of line 484:
`round(((old_s - new_s) / old_s) * 100, 2) if old_s > 0 else 0`. -/
def computePct (old_s new_s : ℚ) : ℚ :=
  if 0 < old_s then pyRound2 (((old_s - new_s) / old_s) * 100) else 0

/-- Line 477 guard: `entry.get("old_size")` and `entry.get("new_size")` are
both Python-truthy (present and non-zero). -/
def sizesPresent (e : StagingRow) : Bool :=
  truthyQ e.old_size && truthyQ e.new_size

/-- Line 483: `entry.get("new_unit") or entry.get("old_unit") or "oz"`. -/
def unitFor (e : StagingRow) : String :=
  pyStrOr e.new_unit (pyStrOr e.old_unit "oz")

/-- The product row upserted for one entry (lines 480-505). -/
def prodOf (e : StagingRow) : Product :=
  { upc := "REDDIT-" ++ strTake 8 e.id
    name := strTake 100 (pyStrOr e.product_hint "Unknown Product")
    brand := e.brand
    category := guess_category
      (strTake 100 (pyStrOr e.product_hint "Unknown Product") ++ " " ++ pyStrOr e.brand "")
    current_size := e.new_size.getD 0
    unit := unitFor e
    typ := "shrinkflation"
    repeat_offender := false
    source := "reddit_bot" }

/-- The event row inserted for one entry (lines 480-520). -/
def evOf (e : StagingRow) : Event :=
  { upc := "REDDIT-" ++ strTake 8 e.id
    date := pyStrOr e.date_noticed (strTake 10 (getDStr e.posted_utc))
    old_size := e.old_size.getD 0
    new_size := e.new_size.getD 0
    unit := unitFor e
    pct := computePct (e.old_size.getD 0) (e.new_size.getD 0)
    price_before := e.old_price
    price_after := e.new_price
    typ := "shrinkflation"
    notes := "Auto-imported from r/shrinkflation: " ++ getDStr e.source_url
    source := "reddit_bot" }

structure PromoteOutcome where
  products : List Product
  events : List Event
  promoted_ids : List String
  promoted : Nat
deriving Repr

/-- The `for entry in entries` loop of promote_auto_entries (lines 476-528),
on the success path of the per-entry try block. -/
def promoteLoop : List StagingRow → PromoteOutcome
  | [] => ⟨[], [], [], 0⟩
  | e :: rest =>
    let o := promoteLoop rest
    if sizesPresent e then
      ⟨prodOf e :: o.products, evOf e :: o.events, e.id :: o.promoted_ids, o.promoted + 1⟩
    else o

/-- The query filter of line 472: `tier = "auto"` and `status = "pending"`. -/
def isPendingAuto (e : StagingRow) : Bool :=
  e.tier == "auto" && e.status == "pending"

/-- promote_auto_entries (lines 470-530), over the staging table contents. -/
def promote_auto_entries (table : List StagingRow) : PromoteOutcome :=
  promoteLoop (table.filter isPendingAuto)

/-! ### Abbreviations used by theorem statements -/

/-- The lowercased text the patterns are matched against. -/
def textLower (text : String) : List Char := lowerStr text.data

/-- Contribution of the brand step to `fields_found` (1 when a known brand
occurs in the text, else 0). -/
def brandFound (tl : List Char) : Nat :=
  if (firstBrand KNOWN_BRANDS tl).isSome then 1 else 0

/-- Contribution of the price step to `fields_found` (1 when at least two
price mentions occur, else 0). -/
def priceFound (tl : List Char) : Nat :=
  if 2 ≤ (findall PRICE_PATTERN tl).length then 1 else 0

end RedditPublicScraper

/-- Rank of a confidence tier in the order discard < review < auto. -/
def tierRank (t : String) : Nat :=
  if t = "auto" then 2 else if t = "review" then 1 else 0

/-! ## Spec-side unit-normalizer models (for the refinement claim about
normalize_unit) -/

/-- Strip one trailing `'s'`, when present. -/
def dropOneTrailingS (s : List Char) : List Char :=
  match s.getLast? with
  | some c => if c = 's' then s.dropLast else s
  | none => s

/-- Modelled from the spec: the unit normalizer exactly as the spec words it
("lower-case, trim, strip a single trailing pluralizing 's' suffix, then look
the token up in the synonym table, with unmapped tokens passing through
unchanged; absent/empty input returns oz"). -/
def normalize_unit_spec_single (u : String) : String :=
  if u = "" then "oz"
  else
    let t := String.mk (dropOneTrailingS (stripWS (lowerStr u.data)))
    match lookupStr RedditPublicScraper.UNIT_SYNONYMS t with
    | some v => v
    | none => t

/-- Strip every trailing `'s'`, phrased as a prefix `take`. -/
def dropAllTrailingS (s : List Char) : List Char :=
  s.take (s.length - (s.reverse.takeWhile (fun c => c = 's')).length)

/-- Modelled from the spec as amended: identical algorithm except that every
trailing `'s'` is stripped, not just one. -/
def normalize_unit_spec_all (u : String) : String :=
  if u = "" then "oz"
  else
    let t := String.mk (dropAllTrailingS (stripWS (lowerStr u.data)))
    match lookupStr RedditPublicScraper.UNIT_SYNONYMS t with
    | some v => v
    | none => t

/-! ## Concrete fixtures used by witnesses and counterexamples -/

/-- A pending auto row whose sizes are both present but `old_size` is the
float `0.0` (Python-falsy). -/
def rowZeroOld : RedditPublicScraper.StagingRow :=
  { id := "zero0001", tier := "auto", status := "pending",
    old_size := some 0, new_size := some 5,
    old_unit := some "oz", new_unit := some "oz",
    old_price := none, new_price := none,
    product_hint := some "some item", brand := none,
    date_noticed := some "2026-01-01", posted_utc := none, source_url := none }

/-- A pending auto row whose `new_unit` is present but empty (Python-falsy),
with `old_unit = "lb"`. -/
def rowEmptyUnit : RedditPublicScraper.StagingRow :=
  { id := "unit0001", tier := "auto", status := "pending",
    old_size := some 52, new_size := some 46,
    old_unit := some "lb", new_unit := some "",
    old_price := none, new_price := none,
    product_hint := none, brand := none,
    date_noticed := some "2026-01-01", posted_utc := none, source_url := none }

/-- Signals with one found field, a set brand and the explicit flag. -/
def sigReview : ParseResult :=
  { emptyResult with brand := some "Tropicana", fields_found := 1, explicit_from_to := true }

/-- Signals with three found fields, a set brand and the explicit flag. -/
def sigAuto : ParseResult :=
  { emptyResult with brand := some "Tropicana", fields_found := 3, explicit_from_to := true }

end FullCarts

open FullCarts FullCarts.RedditPublicScraper

/-! # Helper lemmas -/

theorem pubHintStep_old_size (t : List Char) (r : ParseResult) :
    (hintStep t r).old_size = r.old_size := rfl

theorem pubHintStep_new_size (t : List Char) (r : ParseResult) :
    (hintStep t r).new_size = r.new_size := rfl

theorem pubHintStep_old_unit (t : List Char) (r : ParseResult) :
    (hintStep t r).old_unit = r.old_unit := rfl

theorem pubHintStep_new_unit (t : List Char) (r : ParseResult) :
    (hintStep t r).new_unit = r.new_unit := rfl

theorem pubHintStep_explicit (t : List Char) (r : ParseResult) :
    (hintStep t r).explicit_from_to = r.explicit_from_to := rfl

theorem pubHintStep_fields (t : List Char) (r : ParseResult) :
    (hintStep t r).fields_found = r.fields_found := rfl

theorem pubPriceStep_old_size (tl : List Char) (r : ParseResult) :
    (priceStep tl r).old_size = r.old_size := by
  unfold priceStep; dsimp only; split_ifs <;> rfl

theorem pubPriceStep_new_size (tl : List Char) (r : ParseResult) :
    (priceStep tl r).new_size = r.new_size := by
  unfold priceStep; dsimp only; split_ifs <;> rfl

theorem pubPriceStep_old_unit (tl : List Char) (r : ParseResult) :
    (priceStep tl r).old_unit = r.old_unit := by
  unfold priceStep; dsimp only; split_ifs <;> rfl

theorem pubPriceStep_new_unit (tl : List Char) (r : ParseResult) :
    (priceStep tl r).new_unit = r.new_unit := by
  unfold priceStep; dsimp only; split_ifs <;> rfl

theorem pubPriceStep_explicit (tl : List Char) (r : ParseResult) :
    (priceStep tl r).explicit_from_to = r.explicit_from_to := by
  unfold priceStep; dsimp only; split_ifs <;> rfl

theorem pubPriceStep_fields (tl : List Char) (r : ParseResult) :
    (priceStep tl r).fields_found = r.fields_found + priceFound tl := by
  unfold priceStep priceFound; dsimp only; split_ifs <;> simp

theorem pubBrandStep_old_size (tl : List Char) (r : ParseResult) :
    (brandStep tl r).old_size = r.old_size := by
  unfold brandStep; split <;> rfl

theorem pubBrandStep_new_size (tl : List Char) (r : ParseResult) :
    (brandStep tl r).new_size = r.new_size := by
  unfold brandStep; split <;> rfl

theorem pubBrandStep_old_unit (tl : List Char) (r : ParseResult) :
    (brandStep tl r).old_unit = r.old_unit := by
  unfold brandStep; split <;> rfl

theorem pubBrandStep_new_unit (tl : List Char) (r : ParseResult) :
    (brandStep tl r).new_unit = r.new_unit := by
  unfold brandStep; split <;> rfl

theorem pubBrandStep_explicit (tl : List Char) (r : ParseResult) :
    (brandStep tl r).explicit_from_to = r.explicit_from_to := by
  unfold brandStep; split <;> rfl

theorem pubBrandStep_fields (tl : List Char) (r : ParseResult) :
    (brandStep tl r).fields_found = r.fields_found + brandFound tl := by
  unfold brandStep brandFound
  rcases h : firstBrand KNOWN_BRANDS tl with _ | b <;> simp [h]

/-! # C3: the confidence-tier decision rule -/

/-- Claim C3: for every ExtractedSignals record, the classifier returns
"auto" iff `fields_found ≥ 3` and the brand is set (present and non-empty,
the code's truthiness test) and `explicit_from_to` is true; otherwise
"review" iff `fields_found ≥ 1`; otherwise "discard".  The PRAW variant's
classifier agrees with the public one on every record. -/
theorem claim_C3_tier_rule (p : ParseResult) :
    ((confidence_tier p = "auto") ↔
      (3 ≤ p.fields_found ∧ truthyStr p.brand = true ∧ p.explicit_from_to = true)) ∧
    (confidence_tier p ≠ "auto" → ((confidence_tier p = "review") ↔ 1 ≤ p.fields_found)) ∧
    (confidence_tier p ≠ "auto" → confidence_tier p ≠ "review" →
      confidence_tier p = "discard") ∧
    RedditScraper.confidence_tier p = confidence_tier p := by
  unfold confidence_tier RedditScraper.confidence_tier
  unfold TIER_AUTO_THRESHOLD TIER_REVIEW_THRESHOLD
  unfold RedditScraper.TIER_AUTO_THRESHOLD RedditScraper.TIER_REVIEW_THRESHOLD
  split_ifs with h1 h2 <;> refine ⟨?_, ?_, ?_, rfl⟩ <;> simp_all

/-! # C9: monotonicity of the tier in fields_found -/

/-- Claim C9: holding the brand set and the explicit flag true, a record with
at least as many found fields never gets a lower tier in the order
discard < review < auto. -/
theorem claim_C9_tier_monotone (p q : ParseResult)
    (hpb : truthyStr p.brand = true) (hpe : p.explicit_from_to = true)
    (hqb : truthyStr q.brand = true) (hqe : q.explicit_from_to = true)
    (hle : p.fields_found ≤ q.fields_found) :
    tierRank (confidence_tier p) ≤ tierRank (confidence_tier q) := by
  unfold confidence_tier TIER_AUTO_THRESHOLD TIER_REVIEW_THRESHOLD
  simp only [hpb, hpe, hqb, hqe, and_true, true_and]
  split_ifs with h1 h2 h3 h4 h5 <;> simp [tierRank] <;> omega

/-- Witness for C9 at concrete records: one found field versus three. -/
theorem claim_C9_witness :
    tierRank (confidence_tier sigReview) ≤ tierRank (confidence_tier sigAuto) :=
  claim_C9_tier_monotone sigReview sigAuto (by decide) (by decide) (by decide)
    (by decide) (by decide)

/-! # Promotion-engine lemmas -/

theorem promoteLoop_events_eq (l : List StagingRow) :
    (promoteLoop l).events = (l.filter sizesPresent).map evOf := by
  induction l with
  | nil => rfl
  | cons e rest ih =>
    by_cases h : sizesPresent e <;> simp [promoteLoop, List.filter_cons, h, ih]

theorem promoteLoop_products_eq (l : List StagingRow) :
    (promoteLoop l).products = (l.filter sizesPresent).map prodOf := by
  induction l with
  | nil => rfl
  | cons e rest ih =>
    by_cases h : sizesPresent e <;> simp [promoteLoop, List.filter_cons, h, ih]

theorem promoteLoop_count_eq (l : List StagingRow) :
    (promoteLoop l).promoted = (l.filter sizesPresent).length := by
  induction l with
  | nil => rfl
  | cons e rest ih =>
    by_cases h : sizesPresent e <;> simp [promoteLoop, List.filter_cons, h, ih]

/-! # C4: the shrink-percentage computation -/

/-- Claim C4: every event row the promotion engine emits carries
`pct = round(((old - new) / old) * 100, 2)` when `old > 0` and `0` otherwise
(`computePct` is exactly that guarded formula, total by construction); for
`old_size = 52, new_size = 46` the value is `11.54 = 577/50`. -/
theorem claim_C4_pct_formula :
    (∀ (table : List StagingRow) (e : Event),
      e ∈ (promote_auto_entries table).events → e.pct = computePct e.old_size e.new_size) ∧
    computePct 52 46 = 577 / 50 ∧
    (∀ o n : ℚ, o ≤ 0 → computePct o n = 0) := by
  refine ⟨?_, by with_unfolding_all rfl, ?_⟩
  · intro table e he
    unfold promote_auto_entries at he
    rw [promoteLoop_events_eq] at he
    rcases List.mem_map.mp he with ⟨r, _, rfl⟩
    rfl
  · intro o n h
    unfold computePct
    split_ifs with h1
    · linarith
    · rfl

/-! # C7: which entries the promotion engine processes -/

/-- Claim C7 as amended: the engine emits exactly one product, one event and
one status flip for each pending auto-tier row whose `old_size` and
`new_size` are both present and non-zero (Python truthiness); the unit
written to both records is `new_unit` when present and non-empty, else
`old_unit` when present and non-empty, else `"oz"`. -/
theorem claim_C7_promotion_scope (table : List StagingRow) :
    (promote_auto_entries table).events
      = ((table.filter isPendingAuto).filter sizesPresent).map evOf ∧
    (promote_auto_entries table).products
      = ((table.filter isPendingAuto).filter sizesPresent).map prodOf ∧
    (promote_auto_entries table).promoted
      = ((table.filter isPendingAuto).filter sizesPresent).length ∧
    (∀ e : StagingRow,
      (evOf e).unit = unitFor e ∧ (prodOf e).unit = unitFor e ∧
      (truthyStr e.new_unit = true → unitFor e = getDStr e.new_unit) ∧
      (truthyStr e.new_unit = false → truthyStr e.old_unit = true →
        unitFor e = getDStr e.old_unit) ∧
      (truthyStr e.new_unit = false → truthyStr e.old_unit = false →
        unitFor e = "oz")) := by
  refine ⟨promoteLoop_events_eq _, promoteLoop_products_eq _, promoteLoop_count_eq _, ?_⟩
  intro e
  refine ⟨rfl, rfl, ?_, ?_, ?_⟩ <;>
    rcases hn : e.new_unit with _ | n <;> rcases ho : e.old_unit with _ | o <;>
      simp_all [truthyStr, unitFor, pyStrOr, getDStr]

/-- Counterexample to C7 as stated: a pending auto row with both sizes
present but `old_size = 0.0` is skipped (no event, nothing promoted), and a
present-but-empty `new_unit` is passed over in favour of `old_unit`. -/
theorem claim_C7_cex :
    (rowZeroOld.old_size.isSome = true ∧ rowZeroOld.new_size.isSome = true ∧
      (promote_auto_entries [rowZeroOld]).events = [] ∧
      (promote_auto_entries [rowZeroOld]).promoted = 0) ∧
    (rowEmptyUnit.new_unit = some "" ∧
      (promote_auto_entries [rowEmptyUnit]).events.map (fun e => e.unit) = ["lb"]) := by
  exact ⟨⟨rfl, rfl, by with_unfolding_all rfl, by with_unfolding_all rfl⟩,
    ⟨rfl, by with_unfolding_all rfl⟩⟩

/-! # C8: the unit normalizer -/

theorem rstripS_eq_dropAllTrailingS (s : List Char) : rstripS s = dropAllTrailingS s := by
  unfold rstripS dropAllTrailingS
  have h : (s.reverse.takeWhile (fun c => c = 's')) ++ (s.reverse.dropWhile (fun c => c = 's'))
      = s.reverse :=
    List.takeWhile_append_dropWhile (p := fun c => decide (c = 's')) (l := s.reverse)
  have h2 : (s.reverse.dropWhile (fun c => c = 's')).reverse
      ++ (s.reverse.takeWhile (fun c => c = 's')).reverse = s := by
    rw [← List.reverse_append, h, List.reverse_reverse]
  have hlen : (s.reverse.dropWhile (fun c => c = 's')).reverse.length
      = s.length - (s.reverse.takeWhile (fun c => c = 's')).length := by
    have hl := congrArg List.length h2
    simp only [List.length_append, List.length_reverse] at hl ⊢
    omega
  calc (s.reverse.dropWhile (fun c => c = 's')).reverse
      = ((s.reverse.dropWhile (fun c => c = 's')).reverse
          ++ (s.reverse.takeWhile (fun c => c = 's')).reverse).take
            (s.reverse.dropWhile (fun c => c = 's')).reverse.length := by
        rw [List.take_left]
    _ = s.take (s.length - (s.reverse.takeWhile (fun c => c = 's')).length) := by
        rw [h2, hlen]

/-- Claim C8 as amended: the normalizer is a pure total function equal to the
spec-side algorithm with "strip every trailing 's'" in place of "strip a
single trailing 's'"; empty input yields `"oz"` and an unmapped token such as
`"g"` passes through unchanged. -/
theorem claim_C8_normalize_refines :
    (∀ u : String, normalize_unit u = normalize_unit_spec_all u) ∧
    normalize_unit "" = "oz" ∧ normalize_unit "g" = "g" := by
  refine ⟨?_, rfl, rfl⟩
  intro u
  unfold normalize_unit normalize_unit_spec_all
  simp only [rstripS_eq_dropAllTrailingS]

/-- Counterexample to C8 as stated: on `"ozss"` the code strips every
trailing 's' and returns `"oz"`, while the claim's single-strip algorithm
returns `"ozs"`. -/
theorem claim_C8_cex :
    normalize_unit "ozss" = "oz" ∧ normalize_unit_spec_single "ozss" = "ozs" ∧
    normalize_unit "ozss" ≠ normalize_unit_spec_single "ozss" :=
  ⟨rfl, rfl, by decide⟩

/-! # Extractor-step lemmas (public scraper) -/

theorem pub_parse_text_eq (text : String) :
    parse_text text = hintStep text.data (priceStep (textLower text)
      (implicitStep (textLower text)
        (explicitStep (textLower text) (brandStep (textLower text) emptyResult)))) := rfl

theorem pubExplicitStep_none (tl : List Char) (r : ParseResult)
    (h : explicitSearch tl = none) : explicitStep tl r = r := by
  unfold explicitStep; rw [h]

theorem pubExplicitStep_cases (tl : List Char) (r : ParseResult) :
    (explicitStep tl r = r) ∨
    ((explicitStep tl r).explicit_from_to = true ∧
      ∃ a b : ℚ, (explicitStep tl r).old_size = some a ∧
        (explicitStep tl r).new_size = some b ∧ b < a ∧
        (explicitStep tl r).fields_found = r.fields_found + 2) := by
  unfold explicitStep
  cases hm : explicitSearch tl with
  | none => left; rfl
  | some m =>
    obtain ⟨caps, rest⟩ := m
    dsimp only
    split_ifs with h1 h2
    · right; exact ⟨rfl, _, _, rfl, rfl, h1, rfl⟩
    · right; exact ⟨rfl, _, _, rfl, rfl, h2, rfl⟩
    · left; rfl

theorem pubImplicitStep_of_true (tl : List Char) (r : ParseResult)
    (h : r.explicit_from_to = true) : implicitStep tl r = r := by
  unfold implicitStep; rw [h]; rfl

theorem pubImplicitStep_flag (tl : List Char) (r : ParseResult) :
    (implicitStep tl r).explicit_from_to = r.explicit_from_to := by
  unfold implicitStep; dsimp only; split_ifs <;> rfl

theorem pubBrandStep_fields_le (tl : List Char) (r : ParseResult) :
    (brandStep tl r).fields_found ≤ r.fields_found + 1 := by
  unfold brandStep; split <;> simp

theorem pubBrandStep_fields_init (tl : List Char) :
    (brandStep tl emptyResult).fields_found = brandFound tl := by
  rw [pubBrandStep_fields]
  exact Nat.zero_add _

theorem pubImplicitStep_fields_le (tl : List Char) (r : ParseResult) :
    (implicitStep tl r).fields_found ≤ r.fields_found + 1 := by
  unfold implicitStep; dsimp only; split_ifs <;> simp

theorem pubPriceFound_le (tl : List Char) : priceFound tl ≤ 1 := by
  unfold priceFound; split_ifs <;> simp

theorem pubBrandFound_le (tl : List Char) : brandFound tl ≤ 1 := by
  unfold brandFound; split_ifs <;> simp

theorem pubSizeSteps_fields_le (tl : List Char) (r : ParseResult) :
    (implicitStep tl (explicitStep tl r)).fields_found ≤ r.fields_found + 2 := by
  rcases pubExplicitStep_cases tl r with he | ⟨hf, a, b, ho, hn, hab, hfld⟩
  · rw [he]
    have := pubImplicitStep_fields_le tl r
    omega
  · rw [pubImplicitStep_of_true tl _ hf, hfld]

theorem pubImplicitStep_pair (tl : List Char) (r : ParseResult)
    (hflag : r.explicit_from_to = false)
    (h2 : 2 ≤ (unitMentions tl).length)
    (hv : mentionVal ((unitMentions tl).headD []) ≠ mentionVal ((unitMentions tl).getLastD []))
    (hu : mentionUnit ((unitMentions tl).headD []) = mentionUnit ((unitMentions tl).getLastD [])) :
    implicitStep tl r = { r with
      old_size := some (max (mentionVal ((unitMentions tl).headD []))
        (mentionVal ((unitMentions tl).getLastD []))),
      new_size := some (min (mentionVal ((unitMentions tl).headD []))
        (mentionVal ((unitMentions tl).getLastD []))),
      old_unit := some (mentionUnit ((unitMentions tl).headD [])),
      new_unit := some (mentionUnit ((unitMentions tl).getLastD [])),
      fields_found := r.fields_found + 1 } := by
  unfold implicitStep
  simp only [hflag, Bool.false_eq_true, if_false]
  split_ifs with ha hb
  · rw [max_eq_left (le_of_lt hb), min_eq_right (le_of_lt hb)]
  · have hlt := lt_of_le_of_ne (not_lt.mp hb) hv
    rw [max_eq_right (le_of_lt hlt), min_eq_left (le_of_lt hlt)]
  · exact absurd (And.intro hv hu) ha

theorem pubImplicitStep_single (tl : List Char) (r : ParseResult)
    (hflag : r.explicit_from_to = false)
    (h1 : (unitMentions tl).length = 1) :
    implicitStep tl r = { r with
      new_size := some (mentionVal ((unitMentions tl).headD [])),
      new_unit := some (mentionUnit ((unitMentions tl).headD [])) } := by
  unfold implicitStep
  simp only [hflag, Bool.false_eq_true, if_false]
  split_ifs <;> first | rfl | omega

theorem pubImplicitStep_mismatch (tl : List Char) (r : ParseResult)
    (hflag : r.explicit_from_to = false)
    (h2 : 2 ≤ (unitMentions tl).length)
    (hvu : mentionUnit ((unitMentions tl).headD []) ≠ mentionUnit ((unitMentions tl).getLastD [])
      ∨ mentionVal ((unitMentions tl).headD []) = mentionVal ((unitMentions tl).getLastD [])) :
    implicitStep tl r = r := by
  unfold implicitStep
  simp only [hflag, Bool.false_eq_true, if_false]
  split_ifs <;> first | rfl | omega | tauto

/-! # Extractor-step lemmas (PRAW scraper) -/

theorem praw_parse_text_eq (text : String) :
    RedditScraper.parse_text text
      = RedditScraper.hintStep text.data (RedditScraper.priceStep (textLower text)
          (RedditScraper.sizeStep (textLower text)
            (RedditScraper.brandStep (textLower text) emptyResult))) := rfl

theorem prawHintStep_fields (t : List Char) (r : ParseResult) :
    (RedditScraper.hintStep t r).fields_found = r.fields_found := rfl

theorem prawPriceStep_fields_le (tl : List Char) (r : ParseResult) :
    (RedditScraper.priceStep tl r).fields_found ≤ r.fields_found + 1 := by
  unfold RedditScraper.priceStep; dsimp only; split_ifs <;> simp

theorem prawBrandStep_fields_le (tl : List Char) (r : ParseResult) :
    (RedditScraper.brandStep tl r).fields_found ≤ r.fields_found + 1 := by
  unfold RedditScraper.brandStep; split <;> simp

theorem prawSizeStep_fields_le (tl : List Char) (r : ParseResult) :
    (RedditScraper.sizeStep tl r).fields_found ≤ r.fields_found + 2 := by
  unfold RedditScraper.sizeStep
  cases hm : reSearch RedditScraper.FROM_TO_PATTERN tl with
  | some m => obtain ⟨caps, rest⟩ := m; simp
  | none => dsimp only; split_ifs <;> simp

/-! # C1: the explicit-from-to invariant -/

/-- Claim C1 as amended: whenever the public scraper's parse_text returns
`explicit_from_to = true`, it holds `old_size > new_size` — the extractor
swaps both values and both units when the matched textual order was
backward, and leaves the flag unset on equal values.  (As stated the claim
also fails for two reasons recorded by the counterexample: the PRAW
variant's parse_text assigns the matched values in textual order without any
swap, and when both units are given explicitly they may differ, so the
inequality need not be "in the same unit".) -/
theorem claim_C1_explicit_invariant (text : String)
    (h : (parse_text text).explicit_from_to = true) :
    ∃ a b : ℚ, (parse_text text).old_size = some a ∧
      (parse_text text).new_size = some b ∧ b < a := by
  rw [pub_parse_text_eq] at h ⊢
  rw [pubHintStep_explicit, pubPriceStep_explicit, pubImplicitStep_flag] at h
  rcases pubExplicitStep_cases (textLower text) (brandStep (textLower text) emptyResult)
    with he | ⟨hf, a, b, ho, hn, hab, _⟩
  · rw [he, pubBrandStep_explicit] at h
    exact absurd h (by decide)
  · have himp := pubImplicitStep_of_true (textLower text) _ hf
    refine ⟨a, b, ?_, ?_, hab⟩
    · rw [pubHintStep_old_size, pubPriceStep_old_size, himp, ho]
    · rw [pubHintStep_new_size, pubPriceStep_new_size, himp, hn]

/-- Witness for C1: a backward-ordered explicit match ("went from 40oz to
64oz") still yields `old_size > new_size`. -/
theorem claim_C1_witness :
    ∃ a b : ℚ, (parse_text "went from 40oz to 64oz").old_size = some a ∧
      (parse_text "went from 40oz to 64oz").new_size = some b ∧ b < a :=
  claim_C1_explicit_invariant "went from 40oz to 64oz" (by with_unfolding_all rfl)

/-- Counterexample to C1 as stated: the PRAW scraper's parse_text keeps the
backward textual order (`old_size = 40 < 64 = new_size` with the flag set),
and the public scraper can set the flag with differing units. -/
theorem claim_C1_cex :
    ((RedditScraper.parse_text "went from 40oz to 64oz").explicit_from_to = true ∧
      (RedditScraper.parse_text "went from 40oz to 64oz").old_size = some 40 ∧
      (RedditScraper.parse_text "went from 40oz to 64oz").new_size = some 64 ∧
      (40 : ℚ) < 64) ∧
    ((parse_text "went from 12oz to 300g").explicit_from_to = true ∧
      (parse_text "went from 12oz to 300g").old_unit = some "g" ∧
      (parse_text "went from 12oz to 300g").new_unit = some "oz" ∧
      ("g" : String) ≠ "oz") := by
  refine ⟨⟨?_, ?_, ?_, by norm_num⟩, ?_, ?_, ?_, by decide⟩ <;> with_unfolding_all rfl

/-! # C2: the implicit size step -/

/-- Claim C2 as amended (scoped to the public scraper's parse_text): when no
explicit pattern matched, two or more unit mentions with equal canonical
units and differing values make the first and the last mention the
endpoints, resolved by magnitude, and add exactly 1 to `fields_found`; a
single mention sets only `new_size`/`new_unit`; two or more mentions with
differing units or equal values record no size signal at all.  (The PRAW
variant violates the claim as stated: see the counterexample.) -/
theorem claim_C2_implicit_size (text : String)
    (hm : explicitSearch (textLower text) = none) :
    (2 ≤ (unitMentions (textLower text)).length →
      mentionVal ((unitMentions (textLower text)).headD [])
        ≠ mentionVal ((unitMentions (textLower text)).getLastD []) →
      mentionUnit ((unitMentions (textLower text)).headD [])
        = mentionUnit ((unitMentions (textLower text)).getLastD []) →
      (parse_text text).old_size = some (max (mentionVal ((unitMentions (textLower text)).headD []))
        (mentionVal ((unitMentions (textLower text)).getLastD []))) ∧
      (parse_text text).new_size = some (min (mentionVal ((unitMentions (textLower text)).headD []))
        (mentionVal ((unitMentions (textLower text)).getLastD []))) ∧
      (parse_text text).old_unit = some (mentionUnit ((unitMentions (textLower text)).headD [])) ∧
      (parse_text text).new_unit = some (mentionUnit ((unitMentions (textLower text)).headD [])) ∧
      (parse_text text).fields_found
        = brandFound (textLower text) + 1 + priceFound (textLower text)) ∧
    ((unitMentions (textLower text)).length = 1 →
      (parse_text text).new_size = some (mentionVal ((unitMentions (textLower text)).headD [])) ∧
      (parse_text text).new_unit = some (mentionUnit ((unitMentions (textLower text)).headD [])) ∧
      (parse_text text).old_size = none ∧ (parse_text text).old_unit = none ∧
      (parse_text text).fields_found = brandFound (textLower text) + priceFound (textLower text)) ∧
    (2 ≤ (unitMentions (textLower text)).length →
      (mentionUnit ((unitMentions (textLower text)).headD [])
          ≠ mentionUnit ((unitMentions (textLower text)).getLastD [])
        ∨ mentionVal ((unitMentions (textLower text)).headD [])
          = mentionVal ((unitMentions (textLower text)).getLastD [])) →
      (parse_text text).old_size = none ∧ (parse_text text).new_size = none ∧
      (parse_text text).old_unit = none ∧ (parse_text text).new_unit = none ∧
      (parse_text text).fields_found
        = brandFound (textLower text) + priceFound (textLower text)) := by
  have hpt : parse_text text = hintStep text.data (priceStep (textLower text)
      (implicitStep (textLower text) (brandStep (textLower text) emptyResult))) := by
    rw [pub_parse_text_eq, pubExplicitStep_none (textLower text) _ hm]
  have hflag : (brandStep (textLower text) emptyResult).explicit_from_to = false := by
    rw [pubBrandStep_explicit]; rfl
  refine ⟨?_, ?_, ?_⟩
  · intro h2 hv hu
    have hi := pubImplicitStep_pair (textLower text) _ hflag h2 hv hu
    rw [hpt, pubHintStep_old_size, pubHintStep_new_size, pubHintStep_old_unit,
      pubHintStep_new_unit, pubHintStep_fields, pubPriceStep_old_size, pubPriceStep_new_size,
      pubPriceStep_old_unit, pubPriceStep_new_unit, pubPriceStep_fields, hi]
    refine ⟨rfl, rfl, ?_, ?_, ?_⟩
    · rfl
    · rw [hu]
    · dsimp only
      rw [pubBrandStep_fields_init]
  · intro h1
    have hi := pubImplicitStep_single (textLower text) _ hflag h1
    rw [hpt, pubHintStep_old_size, pubHintStep_new_size, pubHintStep_old_unit,
      pubHintStep_new_unit, pubHintStep_fields, pubPriceStep_old_size, pubPriceStep_new_size,
      pubPriceStep_old_unit, pubPriceStep_new_unit, pubPriceStep_fields, hi]
    refine ⟨rfl, rfl, ?_, ?_, ?_⟩
    · rw [pubBrandStep_old_size]; rfl
    · rw [pubBrandStep_old_unit]; rfl
    · dsimp only
      rw [pubBrandStep_fields_init]
  · intro h2 hvu
    have hi := pubImplicitStep_mismatch (textLower text) _ hflag h2 hvu
    rw [hpt, pubHintStep_old_size, pubHintStep_new_size, pubHintStep_old_unit,
      pubHintStep_new_unit, pubHintStep_fields, pubPriceStep_old_size, pubPriceStep_new_size,
      pubPriceStep_old_unit, pubPriceStep_new_unit, pubPriceStep_fields, hi]
    refine ⟨?_, ?_, ?_, ?_, ?_⟩
    · rw [pubBrandStep_old_size]; rfl
    · rw [pubBrandStep_new_size]; rfl
    · rw [pubBrandStep_old_unit]; rfl
    · rw [pubBrandStep_new_unit]; rfl
    · rw [pubBrandStep_fields_init]

/-- Witness for C2: "10oz and 40oz" has two same-unit mentions, so the
magnitude-resolved pair is recorded. -/
theorem claim_C2_witness :
    (parse_text "10oz and 40oz").old_size = some 40 ∧
    (parse_text "10oz and 40oz").new_size = some 10 := by
  have h := (claim_C2_implicit_size "10oz and 40oz" (by with_unfolding_all rfl)).1
  have hl : (unitMentions (textLower "10oz and 40oz")).length = 2 := by
    with_unfolding_all rfl
  have hv0 : mentionVal ((unitMentions (textLower "10oz and 40oz")).headD []) = 10 := by
    with_unfolding_all rfl
  have hvL : mentionVal ((unitMentions (textLower "10oz and 40oz")).getLastD []) = 40 := by
    with_unfolding_all rfl
  have hu0 : mentionUnit ((unitMentions (textLower "10oz and 40oz")).headD []) = "oz" := by
    with_unfolding_all rfl
  have huL : mentionUnit ((unitMentions (textLower "10oz and 40oz")).getLastD []) = "oz" := by
    with_unfolding_all rfl
  obtain ⟨ho, hn, _, _, _⟩ := h (by omega) (by rw [hv0, hvL]; norm_num) (by rw [hu0, huL])
  rw [hv0, hvL] at ho hn
  constructor
  · rw [ho, max_eq_right (by norm_num : (10 : ℚ) ≤ 40)]
  · rw [hn, min_eq_left (by norm_num : (10 : ℚ) ≤ 40)]

/-- Counterexample to C2 as stated: the PRAW scraper's implicit step keeps
textual order (first = old even when smaller) and records a pair with
differing units instead of suppressing it. -/
theorem claim_C2_cex :
    ((RedditScraper.parse_text "10oz and 40oz").old_size = some 10 ∧
      (RedditScraper.parse_text "10oz and 40oz").new_size = some 40 ∧ (10 : ℚ) < 40) ∧
    ((RedditScraper.parse_text "12oz and 12g").old_size = some 12 ∧
      (RedditScraper.parse_text "12oz and 12g").new_size = some 12 ∧
      (RedditScraper.parse_text "12oz and 12g").old_unit = some "oz" ∧
      (RedditScraper.parse_text "12oz and 12g").new_unit = some "g") := by
  refine ⟨⟨?_, ?_, by norm_num⟩, ?_, ?_, ?_, ?_⟩ <;> with_unfolding_all rfl

/-! # C6: the "from 52oz to 46oz" scenario -/

/-- Claim C6 as amended: for any text whose leftmost FROM_TO match captures
the groups `52 / oz / 46 / oz` — in particular any text in which the first
explicit match is the phrase "from 52oz to 46oz", such as that string
itself — extraction yields `old_size = 52`, `new_size = 46`, both units
`"oz"` and the explicit flag.  (As stated over every text merely containing
the substring, the claim fails: an earlier match wins; see the
counterexample.) -/
theorem claim_C6_from_to (text : String) (caps : Caps) (rest : List Char)
    (hs : reSearch FROM_TO_PATTERN (textLower text) = some (caps, rest))
    (h1 : capLookup caps 1 = some ("52".data))
    (h2 : capLookup caps 2 = some ("oz".data))
    (h3 : capLookup caps 3 = some ("46".data))
    (h4 : capLookup caps 4 = some ("oz".data)) :
    (parse_text text).old_size = some 52 ∧ (parse_text text).new_size = some 46 ∧
    (parse_text text).old_unit = some "oz" ∧ (parse_text text).new_unit = some "oz" ∧
    (parse_text text).explicit_from_to = true := by
  have hes : explicitSearch (textLower text) = some (caps, rest) := by
    unfold explicitSearch; rw [hs]
  have e52 : parseNum ("52".data) = 52 := by with_unfolding_all rfl
  have e46 : parseNum ("46".data) = 46 := by with_unfolding_all rfl
  have eoz : normalize_unit (String.mk ("oz".data)) = "oz" := by with_unfolding_all rfl
  have hstep : explicitStep (textLower text) (brandStep (textLower text) emptyResult)
      = { brandStep (textLower text) emptyResult with
          old_size := some 52, new_size := some 46,
          old_unit := some "oz", new_unit := some "oz",
          explicit_from_to := true,
          fields_found := (brandStep (textLower text) emptyResult).fields_found + 2 } := by
    unfold explicitStep
    rw [hes]
    dsimp only
    rw [h1, h2, h3, h4]
    simp only [Option.getD_some, e52, e46, eoz]
    rw [if_pos (by norm_num : (52 : ℚ) > 46)]
  rw [pub_parse_text_eq]
  have himp := pubImplicitStep_of_true (textLower text)
    (explicitStep (textLower text) (brandStep (textLower text) emptyResult))
    (by rw [hstep])
  refine ⟨?_, ?_, ?_, ?_, ?_⟩
  · rw [pubHintStep_old_size, pubPriceStep_old_size, himp, hstep]
  · rw [pubHintStep_new_size, pubPriceStep_new_size, himp, hstep]
  · rw [pubHintStep_old_unit, pubPriceStep_old_unit, himp, hstep]
  · rw [pubHintStep_new_unit, pubPriceStep_new_unit, himp, hstep]
  · rw [pubHintStep_explicit, pubPriceStep_explicit, pubImplicitStep_flag, hstep]

/-- Witness for C6 at the text "from 52oz to 46oz" itself. -/
theorem claim_C6_witness :
    (parse_text "from 52oz to 46oz").old_size = some 52 ∧
    (parse_text "from 52oz to 46oz").new_size = some 46 ∧
    (parse_text "from 52oz to 46oz").old_unit = some "oz" ∧
    (parse_text "from 52oz to 46oz").new_unit = some "oz" ∧
    (parse_text "from 52oz to 46oz").explicit_from_to = true :=
  claim_C6_from_to "from 52oz to 46oz"
    [(4, "oz".data), (3, "46".data), (2, "oz".data), (1, "52".data)] []
    (by with_unfolding_all rfl) (by with_unfolding_all rfl) (by with_unfolding_all rfl)
    (by with_unfolding_all rfl) (by with_unfolding_all rfl)

/-- Counterexample to C6 as stated: a text containing the substring
"from 52oz to 46oz" whose leftmost explicit match is an earlier phrase
extracts that earlier pair, not 52/46. -/
theorem claim_C6_cex :
    subIn ("from 52oz to 46oz".data) ("was 9oz to 5oz and from 52oz to 46oz".data) = true ∧
    (parse_text "was 9oz to 5oz and from 52oz to 46oz").old_size = some 9 ∧
    (parse_text "was 9oz to 5oz and from 52oz to 46oz").old_size ≠ some 52 := by
  have h9 : (parse_text "was 9oz to 5oz and from 52oz to 46oz").old_size = some 9 := by
    with_unfolding_all rfl
  refine ⟨by rfl, h9, ?_⟩
  rw [h9]
  intro hcon
  exact absurd (Option.some.inj hcon) (by norm_num)

/-! # C10: the fields_found bound -/

/-- Claim C10: in both scraper variants `fields_found` never exceeds 4
(brand at most 1, the explicit and implicit size steps at most 2 and never
both, prices at most 1); as a `Nat` it is at least 0 by construction. -/
theorem claim_C10_fields_bound (text : String) :
    (parse_text text).fields_found ≤ 4 ∧
    (RedditScraper.parse_text text).fields_found ≤ 4 := by
  constructor
  · rw [pub_parse_text_eq, pubHintStep_fields, pubPriceStep_fields]
    have h1 := pubSizeSteps_fields_le (textLower text) (brandStep (textLower text) emptyResult)
    have h2 := pubBrandStep_fields_le (textLower text) emptyResult
    have h3 := pubPriceFound_le (textLower text)
    have h0 : emptyResult.fields_found = 0 := rfl
    omega
  · rw [praw_parse_text_eq, prawHintStep_fields]
    have h1 := prawPriceStep_fields_le (textLower text)
      (RedditScraper.sizeStep (textLower text)
        (RedditScraper.brandStep (textLower text) emptyResult))
    have h2 := prawSizeStep_fields_le (textLower text)
      (RedditScraper.brandStep (textLower text) emptyResult)
    have h3 := prawBrandStep_fields_le (textLower text) emptyResult
    have h0 : emptyResult.fields_found = 0 := rfl
    omega

/-! # C5: deduplication across runs -/

theorem tierBump_dup (s : RunStats) (t : String) :
    (tierBump s t).skipped_dup = s.skipped_dup := by
  unfold tierBump; split_ifs <;> rfl

theorem mem_insertUrl_self (u : String) (l : List String) : u ∈ insertUrl u l := by
  unfold insertUrl; split_ifs with h
  · exact h
  · exact List.mem_cons_self u l

theorem mem_insertUrl_of (u v : String) (l : List String) (h : v ∈ l) :
    v ∈ insertUrl u l := by
  unfold insertUrl; split_ifs
  · exact h
  · exact List.mem_cons_of_mem _ h

theorem pp_entries_not_known (now : Nat) (known : List String) :
    ∀ (posts : List RedditPost) (e : StagingEntry),
      e ∈ (process_posts now known posts).entries → e.source_url ∉ known := by
  intro posts
  induction posts with
  | nil => intro e he; simp [process_posts] at he
  | cons p rest ih =>
    intro e he
    by_cases h1 : urlOfPost p ∈ known
    · rw [show (process_posts now known (p :: rest)).entries
          = (process_posts now known rest).entries by simp [process_posts, h1]] at he
      exact ih e he
    · by_cases h2 : droppedNoKw p = true
      · rw [show (process_posts now known (p :: rest)).entries
            = (process_posts now known rest).entries by simp [process_posts, h1, h2]] at he
        exact ih e he
      · by_cases h3 : confidence_tier (parse_text (p.title ++ "\n" ++ p.selftext)) ≠ "discard"
        · rw [show (process_posts now known (p :: rest)).entries
              = build_entry now p (parse_text (p.title ++ "\n" ++ p.selftext))
                  (confidence_tier (parse_text (p.title ++ "\n" ++ p.selftext)))
                :: (process_posts now known rest).entries by
                simp [process_posts, h1, h2, h3]] at he
          rcases List.mem_cons.mp he with rfl | he2
          · exact h1
          · exact ih e he2
        · rw [show (process_posts now known (p :: rest)).entries
              = (process_posts now known rest).entries by
              simp [process_posts, h1, h2, h3]] at he
          exact ih e he

theorem pp_dup_count (now : Nat) (known : List String) :
    ∀ posts : List RedditPost, (process_posts now known posts).stats.skipped_dup
      = (posts.filter (fun p => decide (urlOfPost p ∈ known))).length := by
  intro posts
  induction posts with
  | nil => rfl
  | cons p rest ih =>
    by_cases h1 : urlOfPost p ∈ known
    · simp [process_posts, h1, List.filter_cons, ih]
    · by_cases h2 : droppedNoKw p = true
      · simp [process_posts, h1, h2, List.filter_cons, ih]
      · simp [process_posts, h1, h2, List.filter_cons, ih, tierBump_dup]

theorem pp_nokw_mem (now : Nat) (known : List String) :
    ∀ (posts : List RedditPost) (p : RedditPost), p ∈ posts → urlOfPost p ∉ known →
      droppedNoKw p = true → urlOfPost p ∈ (process_posts now known posts).new_urls := by
  intro posts
  induction posts with
  | nil => intro p hp _ _; simp at hp
  | cons q rest ih =>
    intro p hp hk hd
    rcases List.mem_cons.mp hp with rfl | hp2
    · rw [show (process_posts now known (p :: rest)).new_urls
          = insertUrl (urlOfPost p) (process_posts now known rest).new_urls by
          simp [process_posts, hk, hd]]
      exact mem_insertUrl_self _ _
    · have hmem := ih p hp2 hk hd
      by_cases h1 : urlOfPost q ∈ known
      · rw [show (process_posts now known (q :: rest)).new_urls
            = (process_posts now known rest).new_urls by simp [process_posts, h1]]
        exact hmem
      · by_cases h2 : droppedNoKw q = true
        · rw [show (process_posts now known (q :: rest)).new_urls
              = insertUrl (urlOfPost q) (process_posts now known rest).new_urls by
              simp [process_posts, h1, h2]]
          exact mem_insertUrl_of _ _ _ hmem
        · rw [show (process_posts now known (q :: rest)).new_urls
              = insertUrl (urlOfPost q) (process_posts now known rest).new_urls by
              simp [process_posts, h1, h2]]
          exact mem_insertUrl_of _ _ _ hmem

/-- Claim C5: a post whose canonical url is already in the registry yields no
staging entry and is counted as a duplicate; a post dropped for lacking
topical keywords has its url added to the run's new-url set; and on any
later run whose registry includes those new urls, no staging entry is ever
produced for that url again. -/
theorem claim_C5_dedup (now : Nat) (known : List String) (posts : List RedditPost) :
    (∀ e ∈ (process_posts now known posts).entries, e.source_url ∉ known) ∧
    ((process_posts now known posts).stats.skipped_dup
      = (posts.filter (fun p => decide (urlOfPost p ∈ known))).length) ∧
    (∀ p ∈ posts, urlOfPost p ∉ known → droppedNoKw p = true →
      urlOfPost p ∈ (process_posts now known posts).new_urls) ∧
    (∀ p ∈ posts, urlOfPost p ∉ known → droppedNoKw p = true →
      ∀ (now2 : Nat) (posts2 : List RedditPost) (e : StagingEntry),
        e ∈ (process_posts now2 (known ++ (process_posts now known posts).new_urls)
          posts2).entries →
        e.source_url ≠ urlOfPost p) := by
  refine ⟨fun e he => pp_entries_not_known now known posts e he,
    pp_dup_count now known posts,
    fun p hp hk hd => pp_nokw_mem now known posts p hp hk hd,
    fun p hp hk hd now2 posts2 e he heq => ?_⟩
  have hnot := pp_entries_not_known now2 (known ++ (process_posts now known posts).new_urls)
    posts2 e he
  exact hnot (heq ▸ List.mem_append.mpr (Or.inr (pp_nokw_mem now known posts p hp hk hd)))
